import Mathlib

/-!
Verification development for the NLtoSQL repository.

The repository ships a React client (two variants of `SQLChat.jsx`: the file
`src/frontend/src/components/SQLChat.jsx` and the unnamed source
`src/unnamed/part_001`) together with a README describing a FastAPI resolution
engine (`app/main.py`).  The engine itself is not among the available source
files, so the engine-side definitions below are modelled from the
specification and the README; each such definition carries a doc comment
starting with `Modelled from the spec:`.  The client-side definitions are
shallow embeddings of the JavaScript in the two `SQLChat` component files.

All string primitives are re-implemented by structural recursion over lists of
characters so that every definition evaluates inside the kernel.
-/

/-- Boolean test that the first list is a leading segment of the second. -/
def leadMatch : List Char → List Char → Bool
  | [], _ => true
  | _ :: _, [] => false
  | p :: ps, c :: cs => p == c && leadMatch ps cs

/-- Boolean test that `pat` occurs as a contiguous sublist of the second list. -/
def hasSub (pat : List Char) : List Char → Bool
  | [] => pat.isEmpty
  | c :: cs => leadMatch pat (c :: cs) || hasSub pat cs

/-- Substring containment on strings (models the Python `in` / JS `includes`). -/
def strContains (s pat : String) : Bool := hasSub pat.data s.data

/-- Uppercasing a string, character by character. -/
def strUpper (s : String) : String := String.mk (s.data.map Char.toUpper)

/-- Lowercasing a string, character by character. -/
def strLower (s : String) : String := String.mk (s.data.map Char.toLower)

/-- Drop leading whitespace characters from a character list. -/
def dropWS : List Char → List Char
  | [] => []
  | c :: cs => if c.isWhitespace then dropWS cs else c :: cs

/-- Trim whitespace from both ends of a character list. -/
def trimChars (cs : List Char) : List Char := (dropWS ((dropWS cs).reverse)).reverse

/-- Trim whitespace from both ends of a string (models `str.strip` / JS `trim`). -/
def strTrim (s : String) : String := String.mk (trimChars s.data)

/-- True when the string is empty or all whitespace (models JS `!s.trim()`). -/
def strBlank (s : String) : Bool := (trimChars s.data).isEmpty

/-- Boolean test that `pat` is a leading segment of `s`. -/
def strStarts (s pat : String) : Bool := leadMatch pat.data s.data

/-- Remove a single trailing semicolon, if any. -/
def stripSemiEnd (cs : List Char) : List Char :=
  match cs.reverse with
  | ';' :: rest => rest.reverse
  | _ => cs

/-- Uniform scalar representation of a column value: text, number, boolean or
an explicit null marker, as produced by the Query Executor.  Numeric values are
modelled as integers. -/
inductive Scalar
  | s (v : String)
  | i (v : Int)
  | b (v : Bool)
  | null
deriving DecidableEq

/-- A result row: an ordered mapping from column names to scalar values, in the
statement's column order (a JSON object in the HTTP response). -/
def Row : Type := List (String × Scalar)

instance : DecidableEq Row := by
  unfold Row
  exact inferInstance

/-- The column-name list of a row, in order (JS `Object.keys(row)`). -/
def rowKeys (row : Row) : List String := row.map Prod.fst

/-- The value list of a row, in order (JS `Object.values(row)`). -/
def rowVals (row : Row) : List Scalar := row.map Prod.snd

/-- True when every row of the list has the same key list as the first row. -/
def rowsAligned (rows : List Row) : Bool :=
  match rows with
  | [] => true
  | r :: rs => rs.all (fun row => rowKeys row == rowKeys r)

/-- The header the client renders: the key list of the first row
(JS `Object.keys(result.results[0])`), or `[]` when there are no rows. -/
def headerKeys (rows : List Row) : List String :=
  match rows with
  | [] => []
  | r :: _ => rowKeys r

/-- The response payload of `POST /ask`, also the engine's ResolutionResult:
question, generated SQL, result rows and provenance method. -/
structure ResolutionResult where
  question : String
  generated_sql : String
  results : List Row
  method : String
deriving DecidableEq

/-- Stringification of a scalar as JS `String(val)` produces it. -/
def scalarToString : Scalar → String
  | .s v => v
  | .i v => toString v
  | .b v => if v then "true" else "false"
  | .null => "null"

/-- A rendered table cell: either a plain stringified value, or the dedicated
styled null-marker element the two components emit for `null` values. -/
inductive Cell
  | plain (text : String)
  | nullMarker
deriving DecidableEq

/-- Rendering of one cell value, from
`val !== null ? String(val) : <span ...>…</span>` in both component files. -/
def renderVal (v : Scalar) : Cell :=
  match v with
  | .null => .nullMarker
  | v => .plain (scalarToString v)

/-- Modelled from the spec: the keywords whose presence (case-insensitively)
makes a candidate statement non-read-only; from validator check 1,
`INSERT|UPDATE|DELETE|DROP|ALTER|ATTACH`.  The backend `app/main.py` is not
among the available sources. -/
def bannedKeywords : List String :=
  ["INSERT", "UPDATE", "DELETE", "DROP", "ALTER", "ATTACH"]

/-- Modelled from the spec: the identifier vocabulary the validator accepts —
SQL keywords, the schema registry's table and column names (README schema:
`products(id, name, category, price)`, `sales(id, product_id, quantity,
sale_date, region)`) and the aliases used by the rule templates. -/
def knownWords : List String :=
  ["select", "from", "where", "as", "count", "sum", "avg", "min", "max",
   "group", "by", "order", "desc", "asc", "limit", "and", "or", "not",
   "on", "join", "inner", "left", "distinct",
   "products", "sales", "id", "name", "category", "price",
   "product_id", "quantity", "sale_date", "region",
   "product_count", "total_quantity"]

/-- Identifier characters: alphanumeric or underscore. -/
def identChar (c : Char) : Bool := c.isAlphanum || c == '_'

/-- Accumulate maximal runs of identifier characters into tokens. -/
def tokensAux : List Char → List Char → List String
  | [], cur => if cur.isEmpty then [] else [String.mk cur.reverse]
  | c :: rest, cur =>
    if identChar c then tokensAux rest (c :: cur)
    else if cur.isEmpty then tokensAux rest []
    else String.mk cur.reverse :: tokensAux rest []

/-- The identifier-like tokens of a statement, in order. -/
def identTokens (s : String) : List String := tokensAux s.data []

/-- True when the token starts with a letter (number literals are exempt from
the identifier whitelist). -/
def alphaLead (t : String) : Bool :=
  match t.data with
  | [] => false
  | c :: _ => c.isAlpha

/-- Modelled from the spec: validator check 2 — every referenced identifier
must exist in the schema descriptor; approximated as membership of each
letter-led token of the lowercased statement in `knownWords`. -/
def identsKnown (sql : String) : Bool :=
  (identTokens (strLower sql)).all (fun t => !(alphaLead t) || knownWords.contains t)

/-- Verdict of the SQL validator: accepted flag plus a reason when rejected. -/
structure ValidationVerdict where
  accepted : Bool
  reason : String
deriving DecidableEq

/-- Modelled from the spec: the SQL Validator, the safety-critical gate.
Checks in order: the statement is a single `SELECT` (rejecting statements
containing `INSERT|UPDATE|DELETE|DROP|ALTER|ATTACH` case-insensitively, reason
`non-SELECT`); no `;`-delimited second statement beyond a single trailing
terminator (reason `multi-statement`); no comment tokens (reason
`comment injection`); every identifier known to the schema (reason
`unknown identifier`). -/
def validate (sql : String) : ValidationVerdict :=
  if !(strStarts (strUpper (strTrim sql)) "SELECT")
      || bannedKeywords.any (fun k => strContains (strUpper (strTrim sql)) k) then
    ⟨false, "non-SELECT"⟩
  else if hasSub [';'] (stripSemiEnd (strUpper (strTrim sql)).data) then
    ⟨false, "multi-statement"⟩
  else if strContains (strUpper (strTrim sql)) "--"
      || strContains (strUpper (strTrim sql)) "/*" then
    ⟨false, "comment injection"⟩
  else if !(identsKnown sql) then
    ⟨false, "unknown identifier"⟩
  else ⟨true, ""⟩

/-- The condition of validator check 1, as the claims state it: the statement
contains one of the banned write keywords case-insensitively, or a
`;`-delimited second statement. -/
def isForbidden (sql : String) : Bool :=
  bannedKeywords.any (fun k => strContains (strUpper (strTrim sql)) k)
    || hasSub [';'] (stripSemiEnd (strUpper (strTrim sql)).data)

/-- Modelled from the spec: the ordered rule set of the Rule Matcher — pairs
of a keyword phrase tested by substring containment against the normalized
question, and the SQL template emitted on a match; first match wins.  The
README documents the count template and its SQL verbatim; the remaining
templates are reconstructed from the README's example rule-based queries. -/
def rules : List (String × String) :=
  [("how many products", "SELECT COUNT(*) as product_count FROM products"),
   ("show all products", "SELECT * FROM products"),
   ("region", "SELECT region, SUM(quantity) as total_quantity FROM sales GROUP BY region ORDER BY total_quantity DESC LIMIT 1")]

/-- Modelled from the spec: question normalization before rule matching —
lower-cased and trimmed. -/
def normalizeQ (q : String) : String := strLower (strTrim q)

/-- Modelled from the spec: the Rule Matcher — the first rule whose keyword
phrase occurs in the normalized question yields its SQL template; otherwise
none and control passes to the model path.  Deterministic and total. -/
def ruleMatch (q : String) : Option String :=
  (rules.find? (fun r => strContains (normalizeQ q) r.1)).map (fun r => r.2)

/-- One row of the `products` table. -/
structure ProductRow where
  id : Int
  name : String
  category : String
  price : Int
deriving DecidableEq

/-- Modelled from the spec: the seeded `products` table.  The README documents
20 products and names two of them (Gaming Laptop, Mechanical Keyboard); the
seed script `generate_data.py` is not among the available sources, so the
remaining rows are placeholders — only the documented row count (20) is
load-bearing for the claims. -/
def products : List ProductRow :=
  [⟨1, "Gaming Laptop", "Electronics", 1200⟩,
   ⟨2, "Mechanical Keyboard", "Accessories", 85⟩,
   ⟨3, "Wireless Mouse", "Accessories", 35⟩,
   ⟨4, "USB-C Hub", "Accessories", 45⟩,
   ⟨5, "4K Monitor", "Electronics", 400⟩,
   ⟨6, "Webcam", "Electronics", 60⟩,
   ⟨7, "Headset", "Audio", 90⟩,
   ⟨8, "Microphone", "Audio", 120⟩,
   ⟨9, "Desk Lamp", "Office", 25⟩,
   ⟨10, "Laptop Stand", "Office", 30⟩,
   ⟨11, "External SSD", "Storage", 150⟩,
   ⟨12, "Graphics Tablet", "Electronics", 220⟩,
   ⟨13, "Smartwatch", "Electronics", 250⟩,
   ⟨14, "Bluetooth Speaker", "Audio", 70⟩,
   ⟨15, "Router", "Networking", 110⟩,
   ⟨16, "NAS Drive", "Storage", 380⟩,
   ⟨17, "Ergonomic Chair", "Office", 320⟩,
   ⟨18, "Standing Desk", "Office", 480⟩,
   ⟨19, "Docking Station", "Accessories", 180⟩,
   ⟨20, "HDMI Cable", "Accessories", 15⟩]

/-- Row-mapping of one product, in the table's column order. -/
def productToRow (p : ProductRow) : Row :=
  [("id", Scalar.i p.id), ("name", Scalar.s p.name),
   ("category", Scalar.s p.category), ("price", Scalar.i p.price)]

/-- Modelled from the spec: the Query Executor — runs a validated statement
against the relational store and converts rows to the uniform scalar
representation.  The store is SQLite (`sales_data.db`), not embeddable here;
the executor is modelled on the statements the rule set emits, and any other
statement is beyond the model and surfaces as an execution failure.  The
aggregate row for the region template is a placeholder consistent with the
README's five regions. -/
def execute (sql : String) : Option (List Row) :=
  if sql = "SELECT COUNT(*) as product_count FROM products" then
    some [[("product_count", Scalar.i (Int.ofNat products.length))]]
  else if sql = "SELECT * FROM products" then
    some (products.map productToRow)
  else if sql = "SELECT region, SUM(quantity) as total_quantity FROM sales GROUP BY region ORDER BY total_quantity DESC LIMIT 1" then
    some [[("region", Scalar.s "North"), ("total_quantity", Scalar.i 120)]]
  else none

/-- Modelled from the spec: the Prompt Builder — renders the schema registry
plus the literal question into a fixed deterministic textual template. -/
def buildPrompt (q : String) : String :=
  "Schema: products(id, name, category, price); sales(id, product_id, quantity, sale_date, region). Question: " ++ q

/-- The error taxonomy of `resolve`, from the spec's error surface. -/
inductive ResolveError
  | NoInputError
  | GenerationFailure
  | ValidationFailure (reason : String)
  | ExecutionFailure
deriving DecidableEq

/-- Validate a candidate statement and, only on acceptance, execute it.  The
returned list records every statement handed to the executor. -/
def runValidated (q sql mth : String) :
    Except ResolveError ResolutionResult × List String :=
  if (validate sql).accepted then
    match execute sql with
    | some rows => (Except.ok ⟨q, sql, rows, mth⟩, [sql])
    | none => (Except.error ResolveError.ExecutionFailure, [sql])
  else (Except.error (ResolveError.ValidationFailure (validate sql).reason), [])

/-- Modelled from the spec: the Resolution Orchestrator.  An empty or
all-whitespace question fails with `NoInputError` before any rule or model is
consulted; otherwise the rule path is tried first, and on no match the
generative model `gen` (a black box producing a candidate statement, `none`
meaning timeout) is consulted once; every candidate passes through `validate`
before execution.  The second component records the statements executed. -/
def resolveAux (gen : String → Option String) (q : String) :
    Except ResolveError ResolutionResult × List String :=
  if strBlank q then (Except.error ResolveError.NoInputError, [])
  else
    match ruleMatch q with
    | some sql => runValidated q sql "rule-based"
    | none =>
      match gen (buildPrompt q) with
      | none => (Except.error ResolveError.GenerationFailure, [])
      | some sql =>
        if strBlank sql then (Except.error ResolveError.GenerationFailure, [])
        else runValidated q sql "model-generated"

/-- The engine's single external operation: `resolve(question)`. -/
def resolve (gen : String → Option String) (q : String) :
    Except ResolveError ResolutionResult :=
  (resolveAux gen q).1

/-- The statements the orchestrator handed to the executor while resolving. -/
def executedStatements (gen : String → Option String) (q : String) : List String :=
  (resolveAux gen q).2

/-- The React component state of `SQLChat`: the four `useState` hooks
`question`, `loading`, `result`, `error`. -/
structure ChatState where
  question : String
  loading : Bool
  result : Option ResolutionResult
  error : Option String
deriving DecidableEq

/-- The HTTP request `handleSubmit` issues.  The JS body
`JSON.stringify({ question: question.trim() })` is modelled structurally as
the single `question` field it serialises. -/
structure AskRequest where
  url : String
  httpMethod : String
  contentType : String
  bodyQuestion : String
deriving DecidableEq

/-- Outcome of the `fetch` call as `handleSubmit` observes it: the fetch (or
body parsing) throws, or a parsed response that is not ok (carrying the
optional `detail` field of its JSON body), or an ok response with parsed data. -/
inductive FetchResult
  | throws (msg : String)
  | notOk (detail : Option String)
  | okData (data : ResolutionResult)

/-- A keyboard event as `handleKeyDown` inspects it. -/
structure KeyEvent where
  key : String
  metaKey : Bool
  ctrlKey : Bool
deriving DecidableEq

/-- The error message thrown on a non-ok response:
`errorData.detail || 'Failed to get response'` — JS `||` falls back when
`detail` is absent, null, or the empty string. -/
def orElseFallback (d : Option String) : String :=
  match d with
  | some s => if s.data.isEmpty then "Failed to get response" else s
  | none => "Failed to get response"

namespace Part001

/-- Embedding of `handleSubmit` from `src/unnamed/part_001` (lines 9–37).
Returns the post-call state and the list of HTTP requests issued.  The guard
`if (!question.trim()) return` issues nothing and leaves the state unchanged;
otherwise loading is set, both result and error are cleared, one POST `/ask`
request is issued with the trimmed question, and the outcome sets exactly one
of result (ok) or error (non-ok or throw); `finally` resets loading. -/
def handleSubmit (st : ChatState) (fetchFn : AskRequest → FetchResult) :
    ChatState × List AskRequest :=
  if strBlank st.question then (st, [])
  else
    let req : AskRequest := ⟨"/ask", "POST", "application/json", strTrim st.question⟩
    let st1 : ChatState := ⟨st.question, true, none, none⟩
    let st2 : ChatState :=
      match fetchFn req with
      | .okData data => ⟨st1.question, st1.loading, some data, st1.error⟩
      | .notOk detail => ⟨st1.question, st1.loading, st1.result, some (orElseFallback detail)⟩
      | .throws msg => ⟨st1.question, st1.loading, st1.result, some msg⟩
    (⟨st2.question, false, st2.result, st2.error⟩, [req])

/-- Embedding of `handleKeyDown` from `src/unnamed/part_001` (lines 39–43):
Enter together with the meta or ctrl modifier triggers `handleSubmit`. -/
def handleKeyDown (e : KeyEvent) (st : ChatState) (fetchFn : AskRequest → FetchResult) :
    ChatState × List AskRequest :=
  if e.key == "Enter" && (e.metaKey || e.ctrlKey) then handleSubmit st fetchFn
  else (st, [])

/-- Embedding of the Run button's `disabled={loading || !question.trim()}`
from `src/unnamed/part_001` (line 76). -/
def runButtonDisabled (st : ChatState) : Bool :=
  st.loading || strBlank st.question

end Part001

namespace SQLChatJsx

/-- Embedding of `handleSubmit` from
`src/frontend/src/components/SQLChat.jsx` (lines 9–37), transcribed from that
file; its logic coincides with the `part_001` variant. -/
def handleSubmit (st : ChatState) (fetchFn : AskRequest → FetchResult) :
    ChatState × List AskRequest :=
  if strBlank st.question then (st, [])
  else
    let req : AskRequest := ⟨"/ask", "POST", "application/json", strTrim st.question⟩
    let st1 : ChatState := ⟨st.question, true, none, none⟩
    let st2 : ChatState :=
      match fetchFn req with
      | .okData data => ⟨st1.question, st1.loading, some data, st1.error⟩
      | .notOk detail => ⟨st1.question, st1.loading, st1.result, some (orElseFallback detail)⟩
      | .throws msg => ⟨st1.question, st1.loading, st1.result, some msg⟩
    (⟨st2.question, false, st2.result, st2.error⟩, [req])

/-- Embedding of `handleKeyDown` from
`src/frontend/src/components/SQLChat.jsx` (lines 39–43). -/
def handleKeyDown (e : KeyEvent) (st : ChatState) (fetchFn : AskRequest → FetchResult) :
    ChatState × List AskRequest :=
  if e.key == "Enter" && (e.metaKey || e.ctrlKey) then handleSubmit st fetchFn
  else (st, [])

/-- Embedding of the Run button's `disabled={loading || !question.trim()}`
from `src/frontend/src/components/SQLChat.jsx` (line 82). -/
def runButtonDisabled (st : ChatState) : Bool :=
  st.loading || strBlank st.question

end SQLChatJsx

theorem runValidated_exec_mem (q sql mth s : String)
    (hs : s ∈ (runValidated q sql mth).2) :
    s = sql ∧ (validate sql).accepted = true := by
  unfold runValidated at hs
  by_cases hacc : (validate sql).accepted = true
  · rw [if_pos hacc] at hs
    refine ⟨?_, hacc⟩
    cases hex : execute sql with
    | some rows => rw [hex] at hs; simpa using hs
    | none => rw [hex] at hs; simpa using hs
  · rw [if_neg hacc] at hs
    simp at hs

/-- C1: every candidate statement containing one of the write keywords
case-insensitively or a `;`-delimited second statement is rejected by
`validate` (`accepted = false`), and every statement the orchestrator hands to
the executor — on either path, for every model — was accepted by `validate`. -/
theorem c1_validator_is_sole_gate :
    (∀ sql, isForbidden sql = true → (validate sql).accepted = false)
    ∧ (∀ gen q s, s ∈ executedStatements gen q → (validate s).accepted = true) := by
  constructor
  · intro sql h
    unfold isForbidden at h
    rw [Bool.or_eq_true] at h
    unfold validate
    by_cases h1 : (!strStarts (strUpper (strTrim sql)) "SELECT"
        || bannedKeywords.any fun k => strContains (strUpper (strTrim sql)) k) = true
    · rw [if_pos h1]
    · rcases h with h | h
      · exact absurd (by rw [Bool.or_eq_true]; exact Or.inr h) h1
      · rw [if_neg h1, if_pos h]
  · intro gen q s hs
    unfold executedStatements resolveAux at hs
    split at hs
    · simp at hs
    · split at hs
      · obtain ⟨heq, hacc⟩ := runValidated_exec_mem _ _ _ _ hs
        rw [heq]
        exact hacc
      · split at hs
        · simp at hs
        · split at hs
          · simp at hs
          · obtain ⟨heq, hacc⟩ := runValidated_exec_mem _ _ _ _ hs
            rw [heq]
            exact hacc

theorem c1_witness :
    isForbidden "DROP TABLE products" = true
    ∧ (validate "DROP TABLE products").accepted = false :=
  ⟨by decide, c1_validator_is_sole_gate.1 "DROP TABLE products" (by decide)⟩

/-- C7: on the question `How many products do we have?` the engine matches a
rule and, for every model, returns the documented SQL, the single row
`product_count = 20`, and method `rule-based`. -/
theorem c7_scenario_a (gen : String → Option String) :
    resolve gen "How many products do we have?" =
      Except.ok ⟨"How many products do we have?",
        "SELECT COUNT(*) as product_count FROM products",
        [[("product_count", Scalar.i 20)]], "rule-based"⟩ := rfl

/-- C10: the two `SQLChat` component variants implement observationally
identical submission logic: `handleSubmit`, `handleKeyDown` and the Run
button's disabled condition agree on every state, fetch outcome and key
event; the variants differ only in presentation markup. -/
theorem c10_variants_equivalent :
    (∀ st fetchFn, SQLChatJsx.handleSubmit st fetchFn = Part001.handleSubmit st fetchFn)
    ∧ (∀ e st fetchFn, SQLChatJsx.handleKeyDown e st fetchFn = Part001.handleKeyDown e st fetchFn)
    ∧ (∀ st, SQLChatJsx.runButtonDisabled st = Part001.runButtonDisabled st) :=
  ⟨fun _ _ => rfl, fun _ _ _ => rfl, fun _ => rfl⟩

/-- C5: every cell value is one of the uniform scalars; the client renders a
cell as the dedicated null marker exactly when the value is null, and renders
every non-null value as the plain stringification — so a null cell is never
confused with any non-null cell. -/
theorem c5_null_rendering_distinct :
    (∀ v : Scalar, renderVal v = Cell.nullMarker ↔ v = Scalar.null)
    ∧ (∀ v : Scalar, v ≠ Scalar.null → renderVal v = Cell.plain (scalarToString v))
    ∧ (∀ v : Scalar, v ≠ Scalar.null → renderVal v ≠ renderVal Scalar.null) := by
  refine ⟨?_, ?_, ?_⟩
  · intro v
    cases v <;> simp [renderVal]
  · intro v hv
    cases v <;> first | rfl | exact absurd rfl hv
  · intro v hv
    cases v <;> first | exact absurd rfl hv | simp [renderVal]

theorem c5_witness :
    renderVal (Scalar.i 5) = Cell.plain (scalarToString (Scalar.i 5)) :=
  c5_null_rendering_distinct.2.1 (Scalar.i 5) (by decide)

/-- C2: for every empty or all-whitespace question, the client submit handler
returns immediately — no request is issued and the state is unchanged — the
Run button is disabled in both component variants, and the engine fails with
`NoInputError`, executes nothing, and its outcome is independent of the model
(no rule or model is consulted). -/
theorem c2_blank_input_rejected (st : ChatState) (fetchFn : AskRequest → FetchResult)
    (gen gen' : String → Option String) (h : strBlank st.question = true) :
    Part001.handleSubmit st fetchFn = (st, [])
    ∧ SQLChatJsx.handleSubmit st fetchFn = (st, [])
    ∧ Part001.runButtonDisabled st = true
    ∧ SQLChatJsx.runButtonDisabled st = true
    ∧ resolve gen st.question = Except.error ResolveError.NoInputError
    ∧ executedStatements gen st.question = []
    ∧ resolveAux gen st.question = resolveAux gen' st.question := by
  refine ⟨?_, ?_, ?_, ?_, ?_, ?_, ?_⟩ <;>
    simp [Part001.handleSubmit, SQLChatJsx.handleSubmit, Part001.runButtonDisabled,
      SQLChatJsx.runButtonDisabled, resolve, resolveAux, executedStatements, h]

theorem c2_witness :
    Part001.handleSubmit ⟨"   ", false, none, none⟩ (fun _ => FetchResult.throws "network")
      = (⟨"   ", false, none, none⟩, [])
    ∧ resolve (fun _ => none) "   " = Except.error ResolveError.NoInputError := by
  have h := c2_blank_input_rejected ⟨"   ", false, none, none⟩
    (fun _ => FetchResult.throws "network") (fun _ => none)
    (fun _ => some "SELECT * FROM products") (by decide)
  exact ⟨h.1, h.2.2.2.2.1⟩

/-- C3 as stated is false on the code: when the non-ok response body carries a
`detail` field that is present but the empty string, JS `||` treats it as
falsy and the surfaced message is the fallback text, not the (empty) detail
value. -/
theorem c3_counterexample :
    (Part001.handleSubmit ⟨"How many products do we have?", false, none, none⟩
        (fun _ => FetchResult.notOk (some ""))).1.error
      = some "Failed to get response"
    ∧ some "Failed to get response" ≠ (some "" : Option String) := by
  refine ⟨rfl, by decide⟩

/-- C3 (amended): on a non-ok response the surfaced error message equals the
body's `detail` field when it is present and non-empty, and the fallback text
`Failed to get response` when `detail` is absent or empty; `result` remains
null so the error is displayed instead of results. -/
theorem c3_error_surface (st : ChatState) (fetchFn : AskRequest → FetchResult)
    (detail : Option String) (h : strBlank st.question = false)
    (hf : fetchFn ⟨"/ask", "POST", "application/json", strTrim st.question⟩
      = FetchResult.notOk detail) :
    (Part001.handleSubmit st fetchFn).1.error = some (orElseFallback detail)
    ∧ (Part001.handleSubmit st fetchFn).1.result = none
    ∧ (SQLChatJsx.handleSubmit st fetchFn).1.error = some (orElseFallback detail)
    ∧ (SQLChatJsx.handleSubmit st fetchFn).1.result = none := by
  refine ⟨?_, ?_, ?_, ?_⟩ <;>
    simp [Part001.handleSubmit, SQLChatJsx.handleSubmit, h, hf]

theorem c3_witness :
    (Part001.handleSubmit ⟨"show all products", false, none, none⟩
        (fun _ => FetchResult.notOk (some "Database error"))).1.error
      = some (orElseFallback (some "Database error")) :=
  (c3_error_surface ⟨"show all products", false, none, none⟩
    (fun _ => FetchResult.notOk (some "Database error")) (some "Database error")
    (by decide) rfl).1

/-- C6: for every question whose trim is non-empty, submitting issues exactly
one POST request to `/ask` whose body carries the single field `question`
holding the trimmed text, and the Ctrl/Cmd+Enter key handler triggers exactly
the same submission as the button click, in both component variants. -/
theorem c6_single_trimmed_request (st : ChatState) (fetchFn : AskRequest → FetchResult)
    (e : KeyEvent) (h : strBlank st.question = false)
    (he : (e.key == "Enter" && (e.metaKey || e.ctrlKey)) = true) :
    (Part001.handleSubmit st fetchFn).2
      = [⟨"/ask", "POST", "application/json", strTrim st.question⟩]
    ∧ Part001.handleKeyDown e st fetchFn = Part001.handleSubmit st fetchFn
    ∧ (SQLChatJsx.handleSubmit st fetchFn).2
      = [⟨"/ask", "POST", "application/json", strTrim st.question⟩]
    ∧ SQLChatJsx.handleKeyDown e st fetchFn = SQLChatJsx.handleSubmit st fetchFn := by
  refine ⟨?_, ?_, ?_, ?_⟩ <;>
    simp [Part001.handleSubmit, SQLChatJsx.handleSubmit, Part001.handleKeyDown,
      SQLChatJsx.handleKeyDown, h, he]

theorem c6_witness :
    (Part001.handleSubmit ⟨"  show all products  ", false, none, none⟩
        (fun _ => FetchResult.throws "network")).2
      = [⟨"/ask", "POST", "application/json", "show all products"⟩] := by
  have h := c6_single_trimmed_request ⟨"  show all products  ", false, none, none⟩
    (fun _ => FetchResult.throws "network") ⟨"Enter", false, true⟩ (by decide) (by decide)
  have hq : strTrim "  show all products  " = "show all products" := by decide
  rw [← hq]
  exact h.1

/-- C9: every completed submission (ok response, non-ok response, or a thrown
fetch) ends with the loading flag false and exactly one of `result` and
`error` non-null — in particular at most one of them is non-null — in both
component variants. -/
theorem c9_loading_reset_exclusive (st : ChatState) (fetchFn : AskRequest → FetchResult)
    (h : strBlank st.question = false) :
    (Part001.handleSubmit st fetchFn).1.loading = false
    ∧ ((Part001.handleSubmit st fetchFn).1.result = none
        ∨ (Part001.handleSubmit st fetchFn).1.error = none)
    ∧ (((Part001.handleSubmit st fetchFn).1.result).isSome
        ∨ ((Part001.handleSubmit st fetchFn).1.error).isSome)
    ∧ (SQLChatJsx.handleSubmit st fetchFn).1.loading = false
    ∧ ((SQLChatJsx.handleSubmit st fetchFn).1.result = none
        ∨ (SQLChatJsx.handleSubmit st fetchFn).1.error = none)
    ∧ (((SQLChatJsx.handleSubmit st fetchFn).1.result).isSome
        ∨ ((SQLChatJsx.handleSubmit st fetchFn).1.error).isSome) := by
  refine ⟨?_, ?_, ?_, ?_, ?_, ?_⟩ <;>
    · simp only [Part001.handleSubmit, SQLChatJsx.handleSubmit, h, Bool.false_eq_true, if_false]
      try
        rcases hfe : fetchFn ⟨"/ask", "POST", "application/json", strTrim st.question⟩ <;>
          simp [hfe]

theorem c9_witness :
    (Part001.handleSubmit ⟨"show all products", false, none, none⟩
        (fun _ => FetchResult.throws "network")).1.loading = false :=
  (c9_loading_reset_exclusive ⟨"show all products", false, none, none⟩
    (fun _ => FetchResult.throws "network") (by decide)).1

theorem resolve_ok_shape (gen : String → Option String) (q : String) (r : ResolutionResult)
    (h : resolve gen q = Except.ok r) :
    ∃ sql mth, (runValidated q sql mth).1 = Except.ok r := by
  unfold resolve resolveAux at h
  split at h
  · cases h
  · split at h
    · exact ⟨_, _, h⟩
    · split at h
      · cases h
      · split at h
        · cases h
        · exact ⟨_, _, h⟩

theorem runValidated_ok (q sql mth : String) (r : ResolutionResult)
    (h : (runValidated q sql mth).1 = Except.ok r) :
    r.generated_sql = sql ∧ r.method = mth ∧ r.question = q
    ∧ (validate sql).accepted = true ∧ execute sql = some r.results := by
  unfold runValidated at h
  by_cases hacc : (validate sql).accepted = true
  · rw [if_pos hacc] at h
    cases hex : execute sql with
    | some rows =>
      rw [hex] at h
      have h2 : Except.ok (⟨q, sql, rows, mth⟩ : ResolutionResult) = Except.ok r := h
      injection h2 with h3
      subst h3
      exact ⟨rfl, rfl, rfl, hacc, rfl⟩
    | none =>
      rw [hex] at h
      cases h
  · rw [if_neg hacc] at h
    cases h

theorem execute_aligned (sql : String) (rows : List Row) (h : execute sql = some rows) :
    rowsAligned rows = true := by
  unfold execute at h
  split at h
  · injection h with h2
    subst h2
    decide
  · split at h
    · injection h with h2
      subst h2
      decide
    · split at h
      · injection h with h2
        subst h2
        decide
      · cases h

theorem aligned_header (rows : List Row) (hal : rowsAligned rows = true) :
    ∀ row ∈ rows, rowKeys row = headerKeys rows := by
  cases rows with
  | nil =>
    intro row hr
    cases hr
  | cons r rs =>
    intro row hr
    unfold rowsAligned at hal
    rcases List.mem_cons.mp hr with h | h
    · subst h
      rfl
    · have h2 := List.all_eq_true.mp hal row h
      exact eq_of_beq h2

/-- C4: in every successful resolution, all row-mappings in the result have
identical key lists, so the table header taken from the first row's keys
labels every cell of every row (each row's key list equals the header and its
value list has the header's length), and the generated SQL is a single
read-only statement (it passed `validate`). -/
theorem c4_rows_uniform (gen : String → Option String) (q : String) (r : ResolutionResult)
    (h : resolve gen q = Except.ok r) :
    rowsAligned r.results = true
    ∧ (∀ row ∈ r.results, rowKeys row = headerKeys r.results
        ∧ (rowVals row).length = (headerKeys r.results).length)
    ∧ (validate r.generated_sql).accepted = true := by
  obtain ⟨sql, mth, hrv⟩ := resolve_ok_shape gen q r h
  obtain ⟨hsql, hmth, hq, hacc, hex⟩ := runValidated_ok q sql mth r hrv
  have hal := execute_aligned sql r.results hex
  refine ⟨hal, ?_, by rw [hsql]; exact hacc⟩
  intro row hrow
  have hk := aligned_header r.results hal row hrow
  refine ⟨hk, ?_⟩
  have hlen : (rowVals row).length = (rowKeys row).length := by
    unfold rowVals rowKeys
    simp
  rw [hlen, hk]

theorem c4_witness :
    rowsAligned ([[("product_count", Scalar.i 20)]] : List Row) = true := by
  have h := c4_rows_uniform (fun _ => none) "How many products do we have?"
    ⟨"How many products do we have?", "SELECT COUNT(*) as product_count FROM products",
      [[("product_count", Scalar.i 20)]], "rule-based"⟩ rfl
  exact h.1

theorem rule_templates_ok :
    ∀ r ∈ rules, (validate r.2).accepted = true ∧ (execute r.2).isSome = true := by
  decide

/-- C8: on any question matched by some rule, the outcome of `resolve` is a
deterministic function of the question alone — identical for any two model
generators — and it succeeds with method `rule-based` and the matched rule's
SQL as `generated_sql`. -/
theorem c8_rule_determinism (q sql : String) (hq : strBlank q = false)
    (hr : ruleMatch q = some sql) :
    (∀ gen gen', resolveAux gen q = resolveAux gen' q)
    ∧ (∀ gen, ∃ rows, resolve gen q = Except.ok ⟨q, sql, rows, "rule-based"⟩) := by
  have hqr : ∀ gen, resolveAux gen q = runValidated q sql "rule-based" := by
    intro gen
    unfold resolveAux
    simp [hq, hr]
  refine ⟨fun gen gen' => by rw [hqr gen, hqr gen'], ?_⟩
  intro gen
  obtain ⟨p, hf, hsql⟩ : ∃ p, rules.find? (fun r => strContains (normalizeQ q) r.1) = some p
      ∧ p.2 = sql := by
    unfold ruleMatch at hr
    cases hfind : rules.find? (fun r => strContains (normalizeQ q) r.1) with
    | none =>
      rw [hfind] at hr
      cases hr
    | some p =>
      rw [hfind] at hr
      exact ⟨p, rfl, by injection hr⟩
  have hmem : p ∈ rules := List.mem_of_find?_eq_some hf
  obtain ⟨hacc, hsome⟩ := rule_templates_ok p hmem
  rw [hsql] at hacc hsome
  obtain ⟨rows, hrows⟩ := Option.isSome_iff_exists.mp hsome
  refine ⟨rows, ?_⟩
  unfold resolve
  rw [hqr gen]
  unfold runValidated
  rw [if_pos hacc, hrows]

theorem c8_witness :
    ∃ rows, resolve (fun _ => none) "How many products do we have?" =
      Except.ok ⟨"How many products do we have?",
        "SELECT COUNT(*) as product_count FROM products", rows, "rule-based"⟩ :=
  (c8_rule_determinism "How many products do we have?"
    "SELECT COUNT(*) as product_count FROM products" (by decide) (by decide)).2
    (fun _ => none)
